import Mathlib

/-!
# Verification of the upload service (`server.js`, `googleDrive.js`, `googlePhotos.js`)

Shallow embedding of the upload orchestration core of the repository.

The effectful JavaScript code is embedded as pure Lean functions over an
explicit environment: every external call (file-system probe, JSON parse,
JWT authorization, remote create/upload/permission call) is an input field
of an environment record holding the result that call would produce
(`Except JsError α` mirrors a JS promise that either rejects with an error
or resolves).  The module-level mutable globals of `googleDrive.js`
(`authClient`, `driveService`) are threaded as an explicit state record;
the state additionally carries `initAttempts`, an instrumentation counter
incremented each time control enters the construction branch
(the branch guarded by the unset client check) of `initializeAuth`, so
that attempting the authorization construction is an observable of the
model.

File bytes and content types are carried opaquely: they flow only into the
remote calls, whose outcomes are already environment inputs, so only the
filename (which appears in the returned outcome objects) is kept as a
parameter of `processUpload`.
-/

namespace UploadW

/-- A JavaScript error value as observed by the `catch` blocks in
`googleDrive.js` / `googlePhotos.js`: its `message` string and the optional
`error.response.data` payload attached by the HTTP client (carried
opaquely as a string). -/
structure JsError where
  message : String
  responseData : Option String
deriving Repr, DecidableEq

/-- The per-file outcome object returned by `processUpload` in both
variants.  JS returns duck-typed object literals; this record is the union
of the fields of the success literal of `googleDrive.js`, the success
literal of `googlePhotos.js`, and the error literal (identical in both
files), with absent fields as `none`. -/
structure Outcome where
  filename : String
  status : String
  fileId : Option String := none
  name : Option String := none
  webViewLink : Option String := none
  webContentLink : Option String := none
  size : Option String := none
  createdTime : Option String := none
  mediaItemId : Option String := none
  productUrl : Option String := none
  error : Option String := none
  details : Option String := none
deriving Repr, DecidableEq

instance : Inhabited Outcome := ⟨{ filename := "", status := "" }⟩

/-- The error object literal built in the `catch` block of both
`processUpload` variants:
the error literal of the catch block (filename, an error status tag, the
error message, and the optional response payload as details). -/
def mkFailure (filename : String) (e : JsError) : Outcome :=
  { filename := filename, status := "error", error := some e.message,
    details := e.responseData }

/-- The fields of `response.data` requested by the Drive `files.create`
call (id, name, webViewLink, webContentLink, size, createdTime);
each may be absent in the response of the provider. -/
structure DriveFile where
  id : Option String
  name : Option String
  webViewLink : Option String
  webContentLink : Option String
  size : Option String
  createdTime : Option String
deriving Repr, DecidableEq

/-- The success object literal of `googleDrive.js`:
filename, a success status tag, and the file metadata fields
(fileId, name, webViewLink, webContentLink, size, createdTime). -/
def driveSuccess (filename : String) (f : DriveFile) : Outcome :=
  { filename := filename, status := "success", fileId := f.id, name := f.name,
    webViewLink := f.webViewLink, webContentLink := f.webContentLink,
    size := f.size, createdTime := f.createdTime }

/-- The module-level mutable globals of `googleDrive.js` (`let authClient;
let driveService;`), plus the instrumentation counter `initAttempts`
counting entries into the construction branch of `initializeAuth`.
The client/service objects themselves are opaque (`Unit`): only
whether they have been assigned is observable to the control flow. -/
structure AuthState where
  authClient : Option Unit
  driveService : Option Unit
  initAttempts : Nat
deriving Repr, DecidableEq

/-- The environment of one `googleDrive.js` `processUpload` call: the
results each external operation would produce if reached. -/
structure DriveEnv where
  /-- Result of `fs.existsSync(keyFilePath)`. -/
  keyFileExists : Bool
  /-- The resolved key file path (used only in the not-found message). -/
  keyFilePath : String
  /-- Result of `JSON.parse(fs.readFileSync(...))`: may throw on a malformed key. -/
  keyParse : Except JsError Unit
  /-- Result of `authClient.authorize()`. -/
  authorizeResult : Except JsError Unit
  /-- Value of `process.env.FOLDER_ID` (`none` when unset). -/
  folderId : Option String
  /-- Result of `driveService.files.create(...)` for this file. -/
  createResult : Except JsError DriveFile
  /-- Result of `driveService.permissions.create(...)` for this file. -/
  permResult : Except JsError Unit

namespace GoogleDrive

/-- The message of the error thrown when the key file is missing. -/
def keyNotFoundMsg (env : DriveEnv) : String :=
  "Service account key file not found: " ++ env.keyFilePath

/-- Embedding of `initializeAuth` from `googleDrive.js`.  Returns the result the `await`
would produce (`.ok` resolves to the pair of globals, read off the
returned state; `.error` is a rejection) together with the globals after
the call.  Mirrors the source exactly: the construction branch runs only
when `authClient` is unset; `authClient` is assigned BEFORE
`authClient.authorize()` is awaited, and `driveService` is assigned only
after authorization succeeds. -/
def initAuth (st : AuthState) (env : DriveEnv) : Except JsError Unit × AuthState :=
  match st.authClient with
  | some _ => (.ok (), st)
  | none =>
    let st1 : AuthState := { st with initAttempts := st.initAttempts + 1 }
    if env.keyFileExists then
      match env.keyParse with
      | .error e => (.error e, st1)
      | .ok _ =>
        let st2 : AuthState := { st1 with authClient := some () }
        match env.authorizeResult with
        | .error e => (.error e, st2)
        | .ok _ => (.ok (), { st2 with driveService := some () })
    else
      (.error ⟨keyNotFoundMsg env, none⟩, st1)

/-- Message of the TypeError raised when `driveService` is destructured as
`undefined` and `driveService.files` is accessed. -/
def undefinedFilesMsg : String :=
  "Cannot read properties of undefined (reading 'files')"

/-- Embedding of `processUpload` from `googleDrive.js`.  The whole body is inside
a try whose catch returns the error literal,
so every rejection along the way is converted to `mkFailure`.  Order of
operations as in the source: `initializeAuth`, the `FOLDER_ID` check, the
`files.create` call (which first reads `driveService.files`, a TypeError
when `driveService` is `undefined`), then the best-effort
`permissions.create` call whose own try/catch only logs a warning — both
of its branches return the same success literal. -/
def processUpload (st : AuthState) (env : DriveEnv) (filename : String) :
    Outcome × AuthState :=
  match initAuth st env with
  | (.error e, st') => (mkFailure filename e, st')
  | (.ok _, st') =>
    if env.folderId.isNone then
      (mkFailure filename ⟨"FOLDER_ID environment variable not set", none⟩, st')
    else
      match st'.driveService with
      | none => (mkFailure filename ⟨undefinedFilesMsg, none⟩, st')
      | some _ =>
        match env.createResult with
        | .error e => (mkFailure filename e, st')
        | .ok f =>
          match env.permResult with
          | .ok _ => (driveSuccess filename f, st')
          | .error _ => (driveSuccess filename f, st')

end GoogleDrive

/-- Shape of `result.status` in a `newMediaItemResults` entry (Photos API). -/
structure ItemStatus where
  message : String
deriving Repr, DecidableEq

/-- Shape of `result.mediaItem` in a `newMediaItemResults` entry. -/
structure MediaItem where
  id : Option String
  productUrl : Option String
deriving Repr, DecidableEq

/-- One entry of `newMediaItemResults`; both sub-objects may be absent. -/
structure MediaItemResult where
  status : Option ItemStatus
  mediaItem : Option MediaItem
deriving Repr, DecidableEq

/-- Shape of `createResponse.data` of the `mediaItems:batchCreate` call; the
`newMediaItemResults` field may be absent (JS reads it with a falsiness
check). -/
structure CreateResponse where
  newMediaItemResults : Option (List MediaItemResult)
deriving Repr, DecidableEq

/-- The environment of one `googlePhotos.js` `processUpload` call. -/
structure PhotosEnv where
  /-- Result of `fs.existsSync(keyFilePath)`. -/
  keyFileExists : Bool
  /-- The resolved key file path (used only in the not-found message). -/
  keyFilePath : String
  /-- Result of `JSON.parse(fs.readFileSync(...))`. -/
  keyParse : Except JsError Unit
  /-- Result of `authClient.authorize()`. -/
  authorizeResult : Except JsError Unit
  /-- Value of `process.env.ALBUM_ID` (`none` when unset). -/
  albumId : Option String
  /-- Combined result of fetching an access token and POSTing the raw
  bytes to `/v1/uploads` (phase a); resolves to the upload token. -/
  uploadResult : Except JsError String
  /-- Combined result of fetching an access token and POSTing
  `mediaItems:batchCreate` (phase b). -/
  createResult : Except JsError CreateResponse

namespace GooglePhotos

/-- The message of the error thrown when the key file is missing. -/
def keyNotFoundMsg (env : PhotosEnv) : String :=
  "Service account key file not found: " ++ env.keyFilePath

/-- Embedding of `initializeAuth` from `googlePhotos.js`: same caching pattern as the
Drive variant but with only the `authClient` global.  As in the source,
`authClient` is assigned before `authorize()` is awaited. -/
def initAuth (st : Option Unit) (env : PhotosEnv) :
    Except JsError Unit × Option Unit :=
  match st with
  | some _ => (.ok (), st)
  | none =>
    if env.keyFileExists then
      match env.keyParse with
      | .error e => (.error e, none)
      | .ok _ =>
        match env.authorizeResult with
        | .error e => (.error e, some ())
        | .ok _ => (.ok (), some ())
    else
      (.error ⟨keyNotFoundMsg env, none⟩, none)

/-- The success object literal of `googlePhotos.js`:
filename, a success status tag, and the optionally-chained media item id
and product URL. -/
def photosSuccess (filename : String) (r : MediaItemResult) : Outcome :=
  { filename := filename, status := "success",
    mediaItemId := r.mediaItem.bind MediaItem.id,
    productUrl := r.mediaItem.bind MediaItem.productUrl }

/-- Embedding of `processUpload` from `googlePhotos.js`.  The whole body is inside a
`try` whose `catch` returns the error literal, so every thrown error is
converted to `mkFailure`.  Mirrors the source: init, the `ALBUM_ID` check,
phase (a) raw-bytes upload, phase (b) `mediaItems:batchCreate`, then
the falsiness check throwing when no media item results came back, then
the check throwing when a status object is present whose message is not
the success message, else the success literal. -/
def processUpload (st : Option Unit) (env : PhotosEnv) (filename : String) :
    Outcome × Option Unit :=
  match initAuth st env with
  | (.error e, st') => (mkFailure filename e, st')
  | (.ok _, st') =>
    if env.albumId.isNone then
      (mkFailure filename ⟨"ALBUM_ID environment variable not set", none⟩, st')
    else
      match env.uploadResult with
      | .error e => (mkFailure filename e, st')
      | .ok _ =>
        match env.createResult with
        | .error e => (mkFailure filename e, st')
        | .ok resp =>
          match resp.newMediaItemResults with
          | none => (mkFailure filename ⟨"No media item results returned", none⟩, st')
          | some [] => (mkFailure filename ⟨"No media item results returned", none⟩, st')
          | some (r :: _) =>
            match r.status with
            | some s =>
              if s.message = "Success" then (photosSuccess filename r, st')
              else (mkFailure filename ⟨"Upload failed: " ++ s.message, none⟩, st')
            | none => (photosSuccess filename r, st')

end GooglePhotos

namespace Server

/-- One multipart file part as multer hands it to the endpoint:
`{ originalname, mimetype, buffer }`.  The buffer is kept only as its byte
length, the sole property the validation layer inspects. -/
structure FilePart where
  originalname : String
  mimetype : String
  size : Nat
deriving Repr, DecidableEq

/-- The `allowedTypes` array of the multer `fileFilter` in `server.js`. -/
def allowedTypes : List String :=
  ["image/jpeg", "image/jpg", "image/png", "image/gif", "image/webp",
   "video/mp4", "video/quicktime", "video/x-msvideo"]

/-- Value of `limits.fileSize` in `server.js`: 500MB per file. -/
def maxFileSize : Nat := 500 * 1024 * 1024

/-- Value of `limits.files` in `server.js` (and the `upload.array` max count): 50. -/
def maxFiles : Nat := 50

/-- The errors the multer layer can abort a request with: the two
`MulterError` codes the error middleware distinguishes, and the plain
`Error` produced by the `fileFilter` callback (carrying its message). -/
inductive MulterErr where
  | limitFileSize
  | limitFileCount
  | fileFilterErr (message : String)
deriving Repr, DecidableEq

/-- The message of the `Error` built in the `fileFilter` callback. -/
def fileFilterMsg : String :=
  "Only images (JPEG, PNG, GIF, WebP) and videos (MP4, MOV, AVI) are allowed"

/-- Multer/busboy processing of the multipart parts in arrival order:
for the part at index `i`, the file-count limit fires once `i` reaches
`maxFiles`; otherwise the `fileFilter` rejects a disallowed content type
before the body is streamed; otherwise streaming the body trips the size
limit when it exceeds `maxFileSize`.  The first error aborts the request. -/
def multerScan : Nat → List FilePart → Except MulterErr Unit
  | _, [] => .ok ()
  | i, p :: rest =>
    if maxFiles ≤ i then .error .limitFileCount
    else if ¬ allowedTypes.contains p.mimetype then
      .error (.fileFilterErr fileFilterMsg)
    else if maxFileSize < p.size then .error .limitFileSize
    else multerScan (i + 1) rest

/-- Test whether the first list is an initial segment of the second. -/
def listStarts : List Char → List Char → Bool
  | [], _ => true
  | _ :: _, [] => false
  | a :: as, b :: bs => a == b && listStarts as bs

/-- Substring occurrence on character lists. -/
def listHas (pat : List Char) : List Char → Bool
  | [] => listStarts pat []
  | b :: bs => listStarts pat (b :: bs) || listHas pat bs

/-- JavaScript `s.includes(pat)`. -/
def strIncludes (s pat : String) : Bool := listHas pat.data s.data

/-- The observable part of an Express response: status code and the JSON
body fields the handlers set (`success`, `message`, `error`, `results`). -/
structure HttpResponse where
  stat : Nat
  success : Bool
  message : Option String := none
  error : Option String := none
  results : Option (List Outcome) := none
deriving Repr, DecidableEq

/-- Body of the 400 response for `LIMIT_FILE_SIZE` in the error middleware. -/
def sizeLimitMsg : String :=
  "Fișier prea mare. Maxim 10MB pentru fotografii, 500MB pentru videoclipuri."

/-- Body of the 400 response for `LIMIT_FILE_COUNT` in the error middleware. -/
def countLimitMsg : String :=
  "Prea multe fișiere. Maxim 50 de fișiere per încărcare."

/-- Body of the 400 response for the `fileFilter` rejection in the error middleware. -/
def badTypeMsg : String :=
  "Please upload supported file types: JPEG, PNG, GIF, WebP images or MP4, MOV, AVI videos."

/-- Body of the global error handler at the bottom of `server.js`. -/
def internalErrMsg : String := "Internal server error"

/-- Body of the 400 response when the parsed request carries no files. -/
def noFilesMsg : String := "No files uploaded"

/-- Body of the 500 response when every upload failed. -/
def allFailedMsg : String := "All uploads failed"

/-- The error-handling middleware of `server.js` (registered between the
root route and the upload route): the two `MulterError` codes get
dedicated 400 bodies; a `fileFilter` error whose message includes both of
the substrings checked by the middleware (the words about images and
about being allowed) gets the unsupported-type 400 body; anything else
falls through `next(error)` to the global handler (500, generic body).
NOTE: because this middleware is registered BEFORE the upload route and
Express dispatches an error only forward through the layers registered
after the failing one, errors raised by the multer stage of the upload
route never reach it; it is embedded here to state what it would answer
had it been reachable. -/
def errorMiddleware (e : MulterErr) : HttpResponse :=
  match e with
  | .limitFileSize => { stat := 400, success := false, error := some sizeLimitMsg }
  | .limitFileCount => { stat := 400, success := false, error := some countLimitMsg }
  | .fileFilterErr m =>
    if strIncludes m ("Only images") && strIncludes m ("are allowed") then
      { stat := 400, success := false, error := some badTypeMsg }
    else
      { stat := 500, success := false, error := some internalErrMsg }

/-- One step of the event loop settling the `Promise.all` array: when the
upload promise for index `i` completes, its outcome is written into slot
`i` of the pending result array. -/
def settleRun (jobs : List Outcome) (schedule : List Nat) : List (Option Outcome) :=
  schedule.foldl (fun acc i => acc.set i jobs[i]?) (List.replicate jobs.length none)

/-- Embedding of `await Promise.all(...)`: the promises complete in the order
given by `schedule` (a permutation of the indices); the resolved array is
read off slot by slot. -/
def promiseAll (jobs : List Outcome) (schedule : List Nat) : List Outcome :=
  (settleRun jobs schedule).map (fun o => o.getD default)

/-- Embedding of the success count computed in `server.js`: the length of
the results filtered to success status. -/
def successCountOf (results : List Outcome) : Nat :=
  (results.filter (fun r => r.status == "success")).length

/-- The success-envelope message of `server.js`:
`` `${successCount} file${successCount > 1 ? 's' : ''} uploaded successfully
to Google Drive` `` plus `` `, ${failureCount} failed` `` when failures
occurred. -/
def summaryMsg (successCount failureCount : Nat) : String :=
  toString successCount ++ " file" ++ (if 1 < successCount then ("s") else (""))
    ++ " uploaded successfully to Google Drive"
    ++ (if 0 < failureCount then (", ") ++ toString failureCount ++ " failed" else (""))

/-- The body of the `POST /upload` handler of `server.js`, after multer has
produced the file list.  `uploader` is the `processUpload` import viewed
per file; `schedule` is the completion order of the fanned-out uploads. -/
def uploadHandler (uploader : FilePart → Outcome) (schedule : List Nat)
    (files : List FilePart) : HttpResponse :=
  if files.length = 0 then
    { stat := 400, success := false, error := some noFilesMsg }
  else
    let results := promiseAll (files.map uploader) schedule
    let successCount := successCountOf results
    let failureCount := results.length - successCount
    if successCount = 0 then
      { stat := 500, success := false, error := some allFailedMsg }
    else
      { stat := 200, success := true,
        message := some (summaryMsg successCount failureCount),
        results := some results }

/-- Response of the global error handler at the bottom of `server.js`:
a generic 500 with no internal detail. -/
def globalErrorResponse : HttpResponse :=
  { stat := 500, success := false, error := some internalErrMsg }

/-- The full `POST /upload` pipeline.  When the multer stage aborts with
an error, `next(error)` dispatches only forward through the layers
registered after the upload route; the 400-producing error middleware was
registered BEFORE the route, so the error skips it and lands in the
global error handler at the bottom of `server.js`, which answers a generic
500.  When multer accepts, the parsed file list goes to the handler. -/
def handleRequest (uploader : FilePart → Outcome) (schedule : List Nat)
    (parts : List FilePart) : HttpResponse :=
  match multerScan 0 parts with
  | .error _ => globalErrorResponse
  | .ok _ => uploadHandler uploader schedule parts

end Server

/-! ## Helper lemmas -/

/-- Folding index writes over a list: the final slot `j` holds `f j` when
`j` was written in range, and the initial content otherwise. -/
theorem foldl_set_get {α : Type} (f : Nat → α) :
    ∀ (schedule : List Nat) (l : List α) (j : Nat),
      (schedule.foldl (fun acc i => acc.set i (f i)) l)[j]? =
        if j ∈ schedule ∧ j < l.length then some (f j) else l[j]?
  | [], l, j => by simp
  | i :: rest, l, j => by
    simp only [List.foldl_cons]
    rw [foldl_set_get f rest (l.set i (f i)) j, List.length_set]
    rcases Nat.lt_or_ge j l.length with hj | hj
    · by_cases hmem : j ∈ rest
      · simp [hmem, hj]
      · by_cases hij : i = j
        · subst hij
          simp [hmem, hj, List.getElem?_set]
        · simp [hmem, hj, hij, List.getElem?_set, List.mem_cons, Ne.symm hij]
    · have h1 : (l.set i (f i))[j]? = none :=
        List.getElem?_eq_none (by simpa using hj)
      have h2 : l[j]? = none := List.getElem?_eq_none hj
      simp [Nat.not_lt.mpr hj, h1, h2]

/-- Semantics of `Promise.all`: whenever every pending upload eventually
completes (the completion schedule is a permutation of the job indices),
the settled array is the job array in submission order, whatever the
completion order was. -/
theorem promiseAll_perm (jobs : List Outcome) (schedule : List Nat)
    (h : schedule.Perm (List.range jobs.length)) :
    Server.promiseAll jobs schedule = jobs := by
  apply List.ext_getElem?
  intro j
  unfold Server.promiseAll Server.settleRun
  rw [List.getElem?_map, foldl_set_get (fun i => jobs[i]?), List.length_replicate]
  by_cases hj : j < jobs.length
  · have hmem : j ∈ schedule := (h.mem_iff).2 (List.mem_range.2 hj)
    simp [hmem, hj, List.getElem?_eq_getElem hj]
  · have h1 : (List.replicate jobs.length (none : Option Outcome))[j]? = none := by
      simp [List.getElem?_replicate, hj]
    have h2 : jobs[j]? = none := List.getElem?_eq_none (Nat.le_of_not_lt hj)
    simp [hj, h1, h2]

/-- Every outcome of the Drive `processUpload` carries one of the two
status tags. -/
theorem driveStatusCases (st : AuthState) (env : DriveEnv) (fn : String) :
    (GoogleDrive.processUpload st env fn).1.status = "success" ∨
      (GoogleDrive.processUpload st env fn).1.status = "error" := by
  unfold GoogleDrive.processUpload
  repeat' split
  all_goals simp [mkFailure, driveSuccess]

/-- Every outcome of the Photos `processUpload` carries one of the two
status tags. -/
theorem photosStatusCases (st : Option Unit) (env : PhotosEnv) (fn : String) :
    (GooglePhotos.processUpload st env fn).1.status = "success" ∨
      (GooglePhotos.processUpload st env fn).1.status = "error" := by
  unfold GooglePhotos.processUpload
  repeat' split
  all_goals simp [mkFailure, GooglePhotos.photosSuccess]

/-! ## Claim theorems -/

/-- C1.  For every input, `processUpload` (both the Drive and the Photos
variant) returns a tagged outcome and never raises past its boundary: in
every environment — missing configuration, failed initialization, network
error, remote rejection, malformed remote response — the result is either
a success-tagged outcome or exactly the Failure literal
`mkFailure fn e`, which carries the human-readable `e.message` in its
`error` field and the raw provider payload `e.responseData` in its
`details` field.  (The functions are total, so no input escapes as an
exception.) -/
theorem processUpload_total_tagged (st : AuthState) (env : DriveEnv)
    (pst : Option Unit) (penv : PhotosEnv) (fn : String) :
    ((GoogleDrive.processUpload st env fn).1.status = "success" ∨
      ∃ e, (GoogleDrive.processUpload st env fn).1 = mkFailure fn e) ∧
    ((GooglePhotos.processUpload pst penv fn).1.status = "success" ∨
      ∃ e, (GooglePhotos.processUpload pst penv fn).1 = mkFailure fn e) := by
  constructor
  · unfold GoogleDrive.processUpload
    repeat' split
    all_goals first
      | exact Or.inr ⟨_, rfl⟩
      | (left; simp [driveSuccess])
  · unfold GooglePhotos.processUpload
    repeat' split
    all_goals first
      | exact Or.inr ⟨_, rfl⟩
      | (left; simp [GooglePhotos.photosSuccess])

/-- C2.  For every batch that passes validation, the results array has
exactly as many outcomes as parts, the outcome at position `i` is the
outcome of the uploader for the part submitted at position `i` — for every
completion order of the individual remote uploads — and whenever the
response carries a results array it is exactly that array. -/
theorem results_match_parts_positionally (uploader : Server.FilePart → Outcome)
    (schedule : List Nat) (files : List Server.FilePart)
    (h : schedule.Perm (List.range files.length)) :
    (Server.promiseAll (files.map uploader) schedule).length = files.length ∧
    (∀ i, i < files.length →
      (Server.promiseAll (files.map uploader) schedule)[i]? =
        (files[i]?).map uploader) ∧
    (∀ rs, (Server.uploadHandler uploader schedule files).results = some rs →
      rs = Server.promiseAll (files.map uploader) schedule) := by
  have hperm : Server.promiseAll (files.map uploader) schedule = files.map uploader := by
    apply promiseAll_perm
    rwa [List.length_map]
  refine ⟨?_, ?_, ?_⟩
  · rw [hperm, List.length_map]
  · intro i _
    rw [hperm, List.getElem?_map]
  · intro rs hrs
    simp only [Server.uploadHandler] at hrs
    split at hrs
    · simp at hrs
    · split at hrs
      · simp at hrs
      · simpa using hrs.symm

/-- C3.  For every batch that passes validation with at least one part:
zero successes yields HTTP 500 with the aggregate failure message, and at
least one success yields HTTP 200 with the human-readable summary and the
full results array. -/
theorem response_status_partition (uploader : Server.FilePart → Outcome)
    (schedule : List Nat) (files : List Server.FilePart)
    (h : schedule.Perm (List.range files.length)) (hne : files.length ≠ 0) :
    (Server.successCountOf (files.map uploader) = 0 →
      Server.uploadHandler uploader schedule files =
        { stat := 500, success := false, error := some Server.allFailedMsg }) ∧
    (0 < Server.successCountOf (files.map uploader) →
      Server.uploadHandler uploader schedule files =
        { stat := 200, success := true,
          message := some (Server.summaryMsg
            (Server.successCountOf (files.map uploader))
            ((files.map uploader).length -
              Server.successCountOf (files.map uploader))),
          results := some (files.map uploader) }) := by
  have hperm : Server.promiseAll (files.map uploader) schedule = files.map uploader := by
    apply promiseAll_perm
    rwa [List.length_map]
  unfold Server.uploadHandler
  rw [if_neg hne, hperm]
  constructor
  · intro h0
    rw [if_pos h0]
  · intro hpos
    rw [if_neg (by omega : ¬ Server.successCountOf (files.map uploader) = 0)]

/-- When the multer stage accepts all parts, every part had an allowed
content type and a size within the limit, and (for a nonempty list) the
part count starting at index `i` stayed within the file limit. -/
theorem multerScan_ok_valid :
    ∀ (parts : List Server.FilePart) (i : Nat),
      Server.multerScan i parts = .ok () →
      (∀ p ∈ parts, Server.allowedTypes.contains p.mimetype = true ∧
        p.size ≤ Server.maxFileSize) ∧
      (parts ≠ [] → i + parts.length ≤ Server.maxFiles)
  | [], i => by
    intro _
    exact ⟨by simp, fun hn => absurd rfl hn⟩
  | p :: rest, i => by
    intro hok
    unfold Server.multerScan at hok
    split at hok
    · cases hok
    · split at hok
      · cases hok
      · split at hok
        · cases hok
        · rename_i h1 h2 h3
          have ih := multerScan_ok_valid rest (i + 1) hok
          constructor
          · intro q hq
            rcases List.mem_cons.mp hq with rfl | hq'
            · exact ⟨by simpa using h2, by omega⟩
            · exact ih.1 q hq'
          · intro _
            by_cases hr : rest = []
            · subst hr
              simp only [List.length_cons, List.length_nil]
              omega
            · have := ih.2 hr
              simp only [List.length_cons]
              omega

/-- The multer stage can only abort with one of three errors: the size
limit, the count limit, or the fixed `fileFilter` rejection message. -/
theorem multerScan_err_shape :
    ∀ (parts : List Server.FilePart) (i : Nat) (e : Server.MulterErr),
      Server.multerScan i parts = .error e →
      e = .limitFileSize ∨ e = .limitFileCount ∨
        e = .fileFilterErr Server.fileFilterMsg
  | [], _, _ => by intro h; cases h
  | p :: rest, i, e => by
    intro herr
    unfold Server.multerScan at herr
    split at herr
    · cases herr; exact Or.inr (Or.inl rfl)
    · split at herr
      · cases herr; exact Or.inr (Or.inr rfl)
      · split at herr
        · cases herr; exact Or.inl rfl
        · exact multerScan_err_shape rest (i + 1) e herr

/-- The fixed `fileFilter` message passes the substring test of the error
middleware. -/
theorem fileFilterMsg_includes :
    (Server.strIncludes Server.fileFilterMsg ("Only images") &&
      Server.strIncludes Server.fileFilterMsg ("are allowed")) = true := by decide

/-- C4.  The code diverges from the claim for every validation failure the
multer stage detects (too many parts, oversized part, disallowed content
type): the error skips the 400-producing middleware (which is registered
before the upload route, and Express dispatches errors only forward) and
is answered by the global error handler with the generic HTTP 500 body —
not a cause-specific 400.  The response is still computed without
consulting the uploader or the schedule (no Uploader invocation occurs),
and the dead middleware would have answered a cause-specific 400 had it
been reachable.  Only the zero-files case, checked inside the route
handler itself, actually answers 400. -/
theorem validation_error_hits_global_handler (parts : List Server.FilePart)
    (h : Server.maxFiles < parts.length ∨
      ∃ p ∈ parts, ¬ Server.allowedTypes.contains p.mimetype = true ∨
        Server.maxFileSize < p.size) :
    (∀ u s, Server.handleRequest u s parts = Server.globalErrorResponse) ∧
    Server.globalErrorResponse.stat = 500 ∧
    Server.globalErrorResponse.error = some Server.internalErrMsg ∧
    (∃ e, Server.multerScan 0 parts = .error e ∧
      (Server.errorMiddleware e).stat = 400) := by
  cases hscan : Server.multerScan 0 parts with
  | ok _ =>
    exfalso
    have hvalid := multerScan_ok_valid parts 0 hscan
    have hne : parts ≠ [] := by
      intro hn
      subst hn
      rcases h with h | ⟨p, hp, _⟩
      · simp [Server.maxFiles] at h
      · cases hp
    rcases h with h | ⟨p, hp, hbad⟩
    · have := hvalid.2 hne
      omega
    · have hv := hvalid.1 p hp
      rcases hbad with hb | hb
      · exact hb hv.1
      · omega
  | error e =>
    have hmw : ∀ u s, Server.handleRequest u s parts = Server.globalErrorResponse := by
      intro u s
      unfold Server.handleRequest
      rw [hscan]
    refine ⟨hmw, rfl, rfl, e, rfl, ?_⟩
    have hshape := multerScan_err_shape parts 0 e hscan
    rcases hshape with rfl | rfl | rfl
    · rfl
    · rfl
    · simp only [Server.errorMiddleware]
      rw [if_pos fileFilterMsg_includes]

/-! ## Concrete sample data for counterexamples and witnesses -/

/-- A valid multipart part. -/
def samplePart : Server.FilePart :=
  { originalname := "a.jpg", mimetype := "image/jpeg", size := 3 }

/-- A part with a disallowed content type. -/
def badTypePart : Server.FilePart :=
  { originalname := "x.exe", mimetype := "application/x-msdownload", size := 3 }

/-- An uploader double that fails every file (as `processUpload` does when
the remote service is down). -/
def failingUploader : Server.FilePart → Outcome :=
  fun p => mkFailure p.originalname ⟨"network error", none⟩

/-- A Drive file as returned by a successful `files.create`. -/
def sampleDriveFile : DriveFile :=
  { id := some ("id1"), name := some ("a.jpg"), webViewLink := some ("viewLink"),
    webContentLink := some ("contentLink"), size := some ("3"),
    createdTime := some ("2024-01-01T00:00:00Z") }

/-- An uploader double that succeeds on every file. -/
def succeedingUploader : Server.FilePart → Outcome :=
  fun p => driveSuccess p.originalname sampleDriveFile

/-- The module state of `googleDrive.js` at process start. -/
def freshAuthState : AuthState :=
  { authClient := none, driveService := none, initAttempts := 0 }

/-- A Drive environment whose service-account key file is missing; every
remote call would succeed if it were reached. -/
def missingKeyEnv : DriveEnv :=
  { keyFileExists := false, keyFilePath := "/srv/service-account-key.json",
    keyParse := .ok (), authorizeResult := .ok (), folderId := some ("folder1"),
    createResult := .ok sampleDriveFile, permResult := .ok () }

/-- C5 counterexample.  A validated batch of one part whose upload fails:
the response (HTTP 500, aggregate message) carries NO results array, so
this batch response does not enumerate the per-file outcomes. -/
theorem total_failure_response_omits_results :
    (Server.handleRequest failingUploader [0] [samplePart]).stat = 500 ∧
    (Server.handleRequest failingUploader [0] [samplePart]).error =
      some Server.allFailedMsg ∧
    (Server.handleRequest failingUploader [0] [samplePart]).results = none := by
  exact ⟨rfl, rfl, rfl⟩

/-- C5 amended.  A batch response with at least one successful upload
enumerates the outcome of every submitted file: its results array is exactly
the per-part outcome list, positionally aligned with the submitted parts;
the total-failure response instead carries only the aggregate error. -/
theorem partial_success_response_enumerates_outcomes
    (uploader : Server.FilePart → Outcome) (schedule : List Nat)
    (files : List Server.FilePart)
    (h : schedule.Perm (List.range files.length))
    (hs : 0 < Server.successCountOf (files.map uploader)) :
    (Server.uploadHandler uploader schedule files).results =
      some (files.map uploader) ∧
    (files.map uploader).length = files.length ∧
    (∀ i, i < files.length → (files.map uploader)[i]? = (files[i]?).map uploader) := by
  have hperm : Server.promiseAll (files.map uploader) schedule = files.map uploader := by
    apply promiseAll_perm
    rwa [List.length_map]
  have hne : files.length ≠ 0 := by
    intro h0
    have : files = [] := List.eq_nil_of_length_eq_zero h0
    subst this
    simp [Server.successCountOf] at hs
  refine ⟨?_, List.length_map files uploader, fun i _ => List.getElem?_map uploader files i⟩
  unfold Server.uploadHandler
  rw [if_neg hne, hperm,
    if_neg (by omega : ¬ Server.successCountOf (files.map uploader) = 0)]

/-- C6 counterexample.  With the key file missing, the first
`processUpload` call enters the construction branch of `initializeAuth`
(one attempt), fails before `authClient` is assigned, and the second call
enters the branch again (a second attempt in the same process lifetime) —
refuting the at-most-once-per-process-lifetime caching. -/
theorem auth_construction_reattempted_after_failure :
    (GoogleDrive.processUpload freshAuthState missingKeyEnv ("a.jpg")).2.initAttempts = 1 ∧
    (GoogleDrive.processUpload
        (GoogleDrive.processUpload freshAuthState missingKeyEnv ("a.jpg")).2
        missingKeyEnv ("a.jpg")).2.initAttempts = 2 ∧
    (GoogleDrive.processUpload freshAuthState missingKeyEnv ("a.jpg")).1.status =
      "error" := by
  exact ⟨rfl, rfl, rfl⟩

/-- C6 amended.  The authorized client is cached only once its
construction has succeeded (calls with `authClient` assigned never mutate
the module state).  If construction fails before `authClient` is assigned
(missing key file, malformed key), every subsequent call re-enters the
construction branch and returns a Failure outcome citing that
initialization error.  If the authorization step rejects after
`authClient` is assigned, the half-initialized client is cached: the
failing call itself returns a Failure citing the authorization error, but
subsequent calls return a Failure carrying a property-access error instead
of the initialization error.  No call crashes: each returns an outcome. -/
theorem auth_failure_caching_behavior (st : AuthState) (env : DriveEnv) (fn : String) :
    (st.authClient = none → env.keyFileExists = false →
      GoogleDrive.processUpload st env fn =
        (mkFailure fn ⟨GoogleDrive.keyNotFoundMsg env, none⟩,
          { st with initAttempts := st.initAttempts + 1 })) ∧
    (∀ e, st.authClient = none → env.keyFileExists = true →
      env.keyParse = .error e →
      GoogleDrive.processUpload st env fn =
        (mkFailure fn e, { st with initAttempts := st.initAttempts + 1 })) ∧
    (∀ u, st.authClient = some u → (GoogleDrive.processUpload st env fn).2 = st) ∧
    (∀ e, st.authClient = none → env.keyFileExists = true →
      env.keyParse = .ok () → env.authorizeResult = .error e →
      GoogleDrive.processUpload st env fn =
        (mkFailure fn e,
          { st with authClient := some (), initAttempts := st.initAttempts + 1 })) ∧
    (st.authClient = some () → st.driveService = none →
      env.folderId.isSome = true →
      (GoogleDrive.processUpload st env fn).1 =
        mkFailure fn ⟨GoogleDrive.undefinedFilesMsg, none⟩) := by
  obtain ⟨ac, ds, n⟩ := st
  refine ⟨?_, ?_, ?_, ?_, ?_⟩
  · intro h1 h2
    simp only at h1
    subst h1
    simp [GoogleDrive.processUpload, GoogleDrive.initAuth, h2]
  · intro e h1 h2 h3
    simp only at h1
    subst h1
    simp [GoogleDrive.processUpload, GoogleDrive.initAuth, h2, h3]
  · intro u hu
    simp only at hu
    subst hu
    simp only [GoogleDrive.processUpload, GoogleDrive.initAuth]
    repeat' split
    all_goals rfl
  · intro e h1 h2 h3 h4
    simp only at h1
    subst h1
    simp [GoogleDrive.processUpload, GoogleDrive.initAuth, h2, h3, h4]
  · intro h1 h2 h3
    simp only at h1 h2
    subst h1
    subst h2
    obtain ⟨fid, hfid⟩ := Option.isSome_iff_exists.mp h3
    simp [GoogleDrive.processUpload, GoogleDrive.initAuth, hfid]

/-- C6 amended, witness: concrete run with the key file missing, from a
fresh module state. -/
theorem auth_failure_caching_behavior_witness :
    GoogleDrive.processUpload freshAuthState missingKeyEnv ("b.jpg") =
      (mkFailure ("b.jpg") ⟨GoogleDrive.keyNotFoundMsg missingKeyEnv, none⟩,
        { freshAuthState with initAttempts := freshAuthState.initAttempts + 1 }) :=
  (auth_failure_caching_behavior freshAuthState missingKeyEnv ("b.jpg")).1 rfl rfl

/-- A Photos environment whose two upload phases both succeed at the
transport level but whose creation response carries an empty
`newMediaItemResults` array. -/
def emptyResultsEnv : PhotosEnv :=
  { keyFileExists := true, keyFilePath := "/srv/service-account-key.json",
    keyParse := .ok (), authorizeResult := .ok (), albumId := some ("album1"),
    uploadResult := .ok ("tok1"),
    createResult := .ok { newMediaItemResults := some [] } }

/-- A per-item result with no `status` object at all. -/
def sampleMediaItemResult : MediaItemResult :=
  { status := none, mediaItem := some { id := some ("m1"), productUrl := some ("u1") } }

/-- A Photos environment whose creation response carries one per-item
result without a `status` field. -/
def noStatusEnv : PhotosEnv :=
  { keyFileExists := true, keyFilePath := "/srv/service-account-key.json",
    keyParse := .ok (), authorizeResult := .ok (), albumId := some ("album1"),
    uploadResult := .ok ("tok1"),
    createResult := .ok { newMediaItemResults := some [sampleMediaItemResult] } }

/-- A Drive environment where everything up to and including the
`files.create` call succeeds but the `permissions.create` call fails. -/
def workingDriveEnv : DriveEnv :=
  { keyFileExists := true, keyFilePath := "/srv/service-account-key.json",
    keyParse := .ok (), authorizeResult := .ok (), folderId := some ("folder1"),
    createResult := .ok sampleDriveFile,
    permResult := .error ⟨"insufficient permissions", none⟩ }

/-- C7 counterexample.  An environment where phase (a) succeeds, phase (b)
succeeds at the transport level and no per-item status signals anything
(the result list is empty) — none of the three failure conditions of the claim
holds — yet `processUpload` returns a Failure outcome. -/
theorem photos_failure_on_empty_results :
    (GooglePhotos.processUpload none emptyResultsEnv ("a.jpg")).1.status = "error" ∧
    (GooglePhotos.processUpload none emptyResultsEnv ("a.jpg")).1.error =
      some ("No media item results returned") ∧
    emptyResultsEnv.uploadResult = .ok ("tok1") ∧
    emptyResultsEnv.createResult = .ok { newMediaItemResults := some [] } := by
  exact ⟨rfl, rfl, rfl, rfl⟩

/-- The failure condition of the amended C7, following the words of the spec:
phase (a) fails, or phase (b) fails at the transport level, or the
creation response carries no media item results, or the first per-item
result carries a status whose message is not the literal `Success`. -/
def specPhotosFailureCond (env : PhotosEnv) : Bool :=
  match env.uploadResult with
  | .error _ => true
  | .ok _ =>
    match env.createResult with
    | .error _ => true
    | .ok resp =>
      match resp.newMediaItemResults with
      | none => true
      | some [] => true
      | some (r :: _) =>
        match r.status with
        | some s => s.message != "Success"
        | none => false

/-- C7 amended.  With initialization succeeded and the album id set, the
two-phase `processUpload` returns a Failure outcome exactly when phase (a)
fails, phase (b) fails at the transport level, the creation response
carries no media item results, or the per-item status signals anything
other than the literal `Success`; in each of these cases the failure is a returned
outcome, not an escaping exception (the function is total). -/
theorem photos_failure_iff_condition (st : Option Unit) (env : PhotosEnv)
    (fn : String)
    (hinit : (GooglePhotos.initAuth st env).1 = .ok ())
    (halb : env.albumId.isSome = true) :
    ((GooglePhotos.processUpload st env fn).1.status = "error" ↔
      specPhotosFailureCond env = true) := by
  rcases hh : GooglePhotos.initAuth st env with ⟨res, st'⟩
  rw [hh] at hinit
  simp only at hinit
  subst hinit
  obtain ⟨alb, halb'⟩ := Option.isSome_iff_exists.mp halb
  simp only [GooglePhotos.processUpload, hh, halb']
  cases hu : env.uploadResult with
  | error e => simp [specPhotosFailureCond, hu, mkFailure]
  | ok tok =>
    cases hc : env.createResult with
    | error e => simp [specPhotosFailureCond, hu, hc, mkFailure]
    | ok resp =>
      cases hr : resp.newMediaItemResults with
      | none => simp [specPhotosFailureCond, hu, hc, hr, mkFailure]
      | some lst =>
        cases lst with
        | nil => simp [specPhotosFailureCond, hu, hc, hr, mkFailure]
        | cons r rs =>
          cases hs : r.status with
          | none =>
            simp [specPhotosFailureCond, hu, hc, hr, hs,
              GooglePhotos.photosSuccess]
          | some s =>
            by_cases hm : s.message = "Success"
            · simp [specPhotosFailureCond, hu, hc, hr, hs, hm,
                GooglePhotos.photosSuccess]
            · simp [specPhotosFailureCond, hu, hc, hr, hs, hm, mkFailure]

/-- C7 amended, witness: the empty-results environment satisfies the
amended failure condition and indeed yields a Failure outcome. -/
theorem photos_failure_iff_condition_witness :
    (GooglePhotos.processUpload none emptyResultsEnv ("c.jpg")).1.status = "error" :=
  (photos_failure_iff_condition none emptyResultsEnv ("c.jpg") rfl rfl).mpr rfl

/-- The Drive `processUpload` never reads the result of the
`permissions.create` call into its outcome or state: replacing that
result changes nothing. -/
theorem drive_processUpload_perm_irrel (st : AuthState) (env : DriveEnv)
    (fn : String) (p : Except JsError Unit) :
    GoogleDrive.processUpload st { env with permResult := p } fn =
      GoogleDrive.processUpload st env fn := by
  obtain ⟨ac, ds, n⟩ := st
  obtain ⟨kfe, kfp, kp, ar, fid, cr, pr⟩ := env
  cases ac <;> cases ds <;> cases kfe <;> cases kp <;> cases ar <;>
    cases fid <;> cases cr <;> cases pr <;> cases p <;> rfl

/-- C8.  In the direct-store variant, once the `files.create` call has
succeeded, the outcome is the Success literal for that file — whatever the
access-control call returns — and substituting any other result for the
access-control call leaves the whole computation unchanged. -/
theorem drive_success_unaffected_by_perm_failure (st : AuthState)
    (env : DriveEnv) (fn : String) (f : DriveFile)
    (hinit : (GoogleDrive.initAuth st env).1 = .ok ())
    (hsvc : (GoogleDrive.initAuth st env).2.driveService = some ())
    (hfold : env.folderId.isSome = true)
    (hcreate : env.createResult = .ok f) :
    (GoogleDrive.processUpload st env fn).1 = driveSuccess fn f ∧
    (∀ p, GoogleDrive.processUpload st { env with permResult := p } fn =
      GoogleDrive.processUpload st env fn) := by
  refine ⟨?_, fun p => drive_processUpload_perm_irrel st env fn p⟩
  rcases hh : GoogleDrive.initAuth st env with ⟨res, st'⟩
  rw [hh] at hinit hsvc
  simp only at hinit hsvc
  subst hinit
  obtain ⟨fid, hfid⟩ := Option.isSome_iff_exists.mp hfold
  simp only [GoogleDrive.processUpload, hh, hfid, hsvc, hcreate]
  cases env.permResult <;> simp

/-- C8 witness: a concrete all-good environment whose permission call
fails; the outcome is still the Success literal. -/
theorem drive_success_unaffected_by_perm_failure_witness :
    (GoogleDrive.processUpload freshAuthState workingDriveEnv ("a.jpg")).1 =
      driveSuccess ("a.jpg") sampleDriveFile :=
  (drive_success_unaffected_by_perm_failure freshAuthState workingDriveEnv
    "a.jpg" sampleDriveFile rfl rfl rfl rfl).1

/-- C9.  In the two-phase variant, when both phases succeed and the first
per-item result object carries no `status` field at all, `processUpload`
reports Success: the non-Success check applies only when a status object
is present. -/
theorem photos_missing_status_is_success (st : Option Unit) (env : PhotosEnv)
    (fn : String) (tok : String) (resp : CreateResponse)
    (r : MediaItemResult) (rs : List MediaItemResult)
    (hinit : (GooglePhotos.initAuth st env).1 = .ok ())
    (halb : env.albumId.isSome = true)
    (hup : env.uploadResult = .ok tok)
    (hcr : env.createResult = .ok resp)
    (hres : resp.newMediaItemResults = some (r :: rs))
    (hstat : r.status = none) :
    (GooglePhotos.processUpload st env fn).1 =
      GooglePhotos.photosSuccess fn r := by
  rcases hh : GooglePhotos.initAuth st env with ⟨res, st'⟩
  rw [hh] at hinit
  simp only at hinit
  subst hinit
  obtain ⟨alb, halb'⟩ := Option.isSome_iff_exists.mp halb
  simp only [GooglePhotos.processUpload, hh, halb', hup, hcr, hres, hstat]
  simp

/-- C9 witness: a concrete environment whose only per-item result has no
status object; the outcome is the Success literal for it. -/
theorem photos_missing_status_is_success_witness :
    (GooglePhotos.processUpload none noStatusEnv ("d.jpg")).1 =
      GooglePhotos.photosSuccess ("d.jpg") sampleMediaItemResult :=
  photos_missing_status_is_success none noStatusEnv ("d.jpg") "tok1"
    { newMediaItemResults := some [sampleMediaItemResult] }
    sampleMediaItemResult [] rfl rfl rfl rfl rfl rfl

/-- On a list of outcomes each tagged `success` or `error`, the lengths of
the two filtered sublists add up to the whole length. -/
theorem status_filter_partition (l : List Outcome)
    (hl : ∀ r ∈ l, r.status = "success" ∨ r.status = "error") :
    (l.filter (fun r => r.status == "success")).length +
      (l.filter (fun r => r.status == "error")).length = l.length := by
  induction l with
  | nil => simp
  | cons a t ih =>
    have ha := hl a (List.mem_cons_self a t)
    have ht := fun r hr => hl r (List.mem_cons_of_mem a hr)
    have iht := ih ht
    rcases ha with h | h
    · rw [List.filter_cons, List.filter_cons, if_pos (by rw [h]; decide),
        if_neg (by rw [h]; decide)]
      simp only [List.length_cons]
      omega
    · rw [List.filter_cons, List.filter_cons, if_neg (by rw [h]; decide),
        if_pos (by rw [h]; decide)]
      simp only [List.length_cons]
      omega

/-- C10.  For every validated batch whose per-part outcomes come from
either `processUpload` variant, the outcome statuses form a closed
two-case tag: each is `success` or `error`, the computed success count is
the number of success-tagged outcomes, and `length - successCount` is
exactly the number of error-tagged outcomes. -/
theorem outcome_counts_partition (parts : List Server.FilePart)
    (schedule : List Nat) (uploader : Server.FilePart → Outcome)
    (h : schedule.Perm (List.range parts.length))
    (hu : ∀ p, (∃ st env,
        uploader p = (GoogleDrive.processUpload st env p.originalname).1) ∨
      (∃ st env,
        uploader p = (GooglePhotos.processUpload st env p.originalname).1)) :
    (∀ r ∈ Server.promiseAll (parts.map uploader) schedule,
      r.status = "success" ∨ r.status = "error") ∧
    Server.successCountOf (Server.promiseAll (parts.map uploader) schedule) +
      ((Server.promiseAll (parts.map uploader) schedule).filter
        (fun r => r.status == "error")).length =
      (Server.promiseAll (parts.map uploader) schedule).length ∧
    (Server.promiseAll (parts.map uploader) schedule).length -
      Server.successCountOf (Server.promiseAll (parts.map uploader) schedule) =
      ((Server.promiseAll (parts.map uploader) schedule).filter
        (fun r => r.status == "error")).length := by
  have hperm : Server.promiseAll (parts.map uploader) schedule = parts.map uploader := by
    apply promiseAll_perm
    rwa [List.length_map]
  rw [hperm]
  have hall : ∀ r ∈ parts.map uploader, r.status = "success" ∨ r.status = "error" := by
    intro r hr
    obtain ⟨p, _, rfl⟩ := List.mem_map.mp hr
    rcases hu p with ⟨st, env, he⟩ | ⟨st, env, he⟩
    · rw [he]; exact driveStatusCases st env p.originalname
    · rw [he]; exact photosStatusCases st env p.originalname
  have hpart := status_filter_partition _ hall
  refine ⟨hall, ?_, ?_⟩ <;> unfold Server.successCountOf <;> omega

/-- An uploader whose every outcome is produced by the Drive
`processUpload`. -/
def driveBackedUploader : Server.FilePart → Outcome :=
  fun p => (GoogleDrive.processUpload freshAuthState missingKeyEnv p.originalname).1

/-- C10 witness: the partition equalities at a concrete one-part batch
whose outcome comes from the Drive `processUpload`. -/
theorem outcome_counts_partition_witness :
    Server.successCountOf (Server.promiseAll ([samplePart].map driveBackedUploader) [0]) +
      ((Server.promiseAll ([samplePart].map driveBackedUploader) [0]).filter
        (fun r => r.status == "error")).length =
      (Server.promiseAll ([samplePart].map driveBackedUploader) [0]).length :=
  (outcome_counts_partition [samplePart] [0] driveBackedUploader (by decide)
    (fun _ => Or.inl ⟨freshAuthState, missingKeyEnv, rfl⟩)).2.1

/-- C2 witness: a concrete one-part batch, completion schedule `[0]`. -/
theorem results_match_parts_positionally_witness :
    (Server.promiseAll ([samplePart].map succeedingUploader) [0]).length = 1 ∧
    (Server.promiseAll ([samplePart].map succeedingUploader) [0])[0]? =
      ([samplePart][0]?).map succeedingUploader := by
  have h := results_match_parts_positionally succeedingUploader [0] [samplePart]
    (by decide)
  exact ⟨h.1, h.2.1 0 (by decide)⟩

/-- C3 witness: a concrete one-part batch whose upload succeeds gets the
200 success envelope. -/
theorem response_status_partition_witness :
    Server.uploadHandler succeedingUploader [0] [samplePart] =
      { stat := 200, success := true,
        message := some (Server.summaryMsg
          (Server.successCountOf ([samplePart].map succeedingUploader))
          (([samplePart].map succeedingUploader).length -
            Server.successCountOf ([samplePart].map succeedingUploader))),
        results := some ([samplePart].map succeedingUploader) } :=
  (response_status_partition succeedingUploader [0] [samplePart]
    (by decide) (by decide)).2 (by decide)

/-- C4 witness: a one-part batch with a disallowed content type — the
concrete failing input — is answered by the generic 500 global-handler
response, whatever the uploader. -/
theorem validation_error_hits_global_handler_witness :
    Server.handleRequest succeedingUploader [0] [badTypePart] =
      Server.globalErrorResponse :=
  (validation_error_hits_global_handler [badTypePart]
    (Or.inr ⟨badTypePart, List.mem_singleton.mpr rfl,
      Or.inl (by decide)⟩)).1 succeedingUploader [0]

/-- C5 amended, witness: a concrete one-part batch whose upload succeeds;
the response enumerates the outcome list. -/
theorem partial_success_response_enumerates_outcomes_witness :
    (Server.uploadHandler succeedingUploader [0] [samplePart]).results =
      some ([samplePart].map succeedingUploader) :=
  (partial_success_response_enumerates_outcomes succeedingUploader [0]
    [samplePart] (by decide) (by decide)).1

end UploadW
